import Mathlib

/-!
Verification of the fetch–parse–diff pipeline of the Ruuvi Gateway
integration (`custom_components/ruuvigateway_noauth`): the response decoder
(`api.py`), the transport-error classification of
`async_get_gateway_history_data`, and the change-detection loop of
`RuuviGatewayUpdateCoordinator._async_update_data` (`coordinator.py`),
together with the bearer-token normalization of `config_flow.py`.

The Python code is shallowly embedded: JSON values are an inductive type,
Python `dict` access, `int(...)` coercion and `bytes.fromhex` are modelled
as functions returning `Except`/`Option`, and the network transport is
abstracted as an outcome value (timeout, client error, or a response with a
status code and an optionally-parsable JSON body).
-/

namespace Ruuvi

/-- JSON values as produced by `response.json()`: Python `dict`s become
association lists whose keys are the (unique) object keys. -/
inductive Json where
  | null
  | bool (b : Bool)
  | num (n : Int)
  | str (s : String)
  | arr (elems : List Json)
  | obj (fields : List (String × Json))

/-- Errors escaping the decode step. The Python code has no dedicated
exception class for decoding: `from_gateway_history_json` lets the raw
`KeyError` / `ValueError` / `TypeError` / `AttributeError` propagate
(line 138 of `api.py` is outside the `try` block). These constructors
mirror those exception kinds; the spec calls this classification
`DecodeError`. -/
inductive DecodeError where
  | keyError (key : String)
  | valueError
  | typeError
  | attributeError
deriving DecidableEq

/-- Test for the error case of an `Except`. -/
def isErr : Except ε α → Bool
  | .error _ => true
  | .ok _ => false

/-- Key lookup in a Python dict (association list, first match). -/
def lookupField : List (String × Json) → String → Option Json
  | [], _ => none
  | (k, v) :: rest, key => if k = key then some v else lookupField rest key

/-- Python subscript `d[key]`: `KeyError` when the key is absent from a
dict, `TypeError` when the value is not a dict at all. -/
def Json.getItem (j : Json) (key : String) : Except DecodeError Json :=
  match j with
  | .obj fields =>
    match lookupField fields key with
    | some v => .ok v
    | none => .error (.keyError key)
  | _ => .error .typeError

/-- Python `d.get(key, default)` on a dict; `AttributeError` otherwise. -/
def Json.getDefault (j : Json) (key : String) (dflt : Json) : Except DecodeError Json :=
  match j with
  | .obj fields => .ok ((lookupField fields key).getD dflt)
  | _ => .error .attributeError

/-- Python `.items()`: the field list of a dict, `AttributeError` otherwise. -/
def Json.asObj : Json → Except DecodeError (List (String × Json))
  | .obj fields => .ok fields
  | _ => .error .attributeError

/-- Whitespace as stripped by Python `str.strip()` (the ASCII cases). -/
def isStripSpace (c : Char) : Bool :=
  c = ' ' || c = '\t' || c = '\n' || c = '\r' || c = '\x0b' || c = '\x0c'

/-- Python `str.strip()`. -/
def pyStrip (s : String) : String :=
  String.mk (((s.data.dropWhile fun c => isStripSpace c).reverse.dropWhile
    fun c => isStripSpace c).reverse)

/-- Decimal digit run to a number; fails on the empty run or a non-digit. -/
def digitsToNat : List Char → Option Nat
  | [] => none
  | cs =>
    cs.foldl
      (fun acc c =>
        acc.bind fun n => if c.isDigit then some (n * 10 + (c.toNat - 48)) else none)
      (some 0)

/-- Python `int(s)` on a string: surrounding whitespace then an optional
sign and a digit run (digit-group underscores are not modelled; no input
in this development uses them). -/
def parseIntString (s : String) : Option Int :=
  match (pyStrip s).data with
  | '-' :: rest => (digitsToNat rest).map fun n => -(n : Int)
  | '+' :: rest => (digitsToNat rest).map fun n => (n : Int)
  | cs => (digitsToNat cs).map fun n => (n : Int)

/-- Python `int(x)` for the JSON-decoded values reaching it in `api.py`:
numbers pass through, booleans coerce (`int(True) = 1`), strings are
parsed, everything else raises (`TypeError`). -/
def pyInt : Json → Option Int
  | .num n => some n
  | .bool b => some (if b then 1 else 0)
  | .str s => parseIntString s
  | _ => none

/-- Value of a hexadecimal digit. -/
def hexVal : Char → Option Nat
  | c =>
    if '0' ≤ c ∧ c ≤ '9' then some (c.toNat - 48)
    else if 'a' ≤ c ∧ c ≤ 'f' then some (c.toNat - 87)
    else if 'A' ≤ c ∧ c ≤ 'F' then some (c.toNat - 55)
    else none

/-- Core of Python `bytes.fromhex`: ASCII whitespace is skipped between
byte pairs, each pair of contiguous hex digits yields one byte, and a
stray single digit or non-hex character fails (`ValueError`). -/
def fromhexChars : List Char → Option (List Nat)
  | [] => some []
  | [c] => if isStripSpace c then some [] else none
  | c :: c2 :: cs =>
    if isStripSpace c then fromhexChars (c2 :: cs)
    else
      match hexVal c, hexVal c2 with
      | some hi, some lo => (fromhexChars cs).map fun bs => (16 * hi + lo) :: bs
      | _, _ => none

/-- Python `bytes.fromhex(s)`; bytes are modelled as `List Nat`. -/
def bytes_fromhex (s : String) : Option (List Nat) :=
  fromhexChars s.data

/-- Tag observation reported by the gateway (`TagData` in `api.py`). -/
structure TagData where
  mac : String
  rssi : Int
  timestamp : Int
  data : List Nat
  age_seconds : Option Int
deriving DecidableEq

/-- The age expression of `api.py` lines 52–54:
`(response_timestamp - tag_timestamp) if response_timestamp else None`.
The Python truthiness test makes both `None` and `0` response timestamps
yield `None`. -/
def age_from (response_timestamp : Option Int) (tag_timestamp : Int) : Option Int :=
  match response_timestamp with
  | some rt => if rt = 0 then none else some (rt - tag_timestamp)
  | none => none

/-- Embedding of `TagData.from_gateway_history_json_tag` (`api.py`
lines 43–61), with the Python evaluation order: `int(payload["timestamp"])`,
then the age (computed with the falsy check `if response_timestamp`, so a
response timestamp of `0` or `None` gives no age), then
`int(payload["rssi"])`, then `bytes.fromhex(payload["data"])`. -/
def TagData.from_gateway_history_json_tag (mac : String) (payload : Json)
    (response_timestamp : Option Int) : Except DecodeError TagData :=
  match payload.getItem "timestamp" with
  | .error e => .error e
  | .ok tsj =>
    match pyInt tsj with
    | none => .error .valueError
    | some tag_timestamp =>
      let age_seconds : Option Int := age_from response_timestamp tag_timestamp
      match payload.getItem "rssi" with
      | .error e => .error e
      | .ok rj =>
        match pyInt rj with
        | none => .error .valueError
        | some rssi =>
          match payload.getItem "data" with
          | .error e => .error e
          | .ok dj =>
            match dj with
            | .str ds =>
              match bytes_fromhex ds with
              | none => .error .valueError
              | some dataBytes =>
                .ok { mac := mac, rssi := rssi, timestamp := tag_timestamp,
                      data := dataBytes, age_seconds := age_seconds }
            | _ => .error .typeError

/-- History response payload from the gateway (`HistoryResponse` in
`api.py`). The dataclass performs no conversion on `gw_mac` and
`coordinates`, so they hold whatever JSON value the body carried. -/
structure HistoryResponse where
  timestamp : Int
  gw_mac : Json
  tags : List TagData
  coordinates : Json

/-- Left-to-right effectful map over `Except`, the embedding of the list
comprehension in `from_gateway_history_json`: the first failing element
aborts the whole traversal. -/
def mapExcept (f : α → Except ε β) : List α → Except ε (List β)
  | [] => .ok []
  | a :: as =>
    match f a with
    | .error e => .error e
    | .ok b =>
      match mapExcept f as with
      | .error e => .error e
      | .ok bs => .ok (b :: bs)

/-- Embedding of `HistoryResponse.from_gateway_history_json` (`api.py`
lines 83–101): takes the nested `data` object, converts its `timestamp`,
decodes every entry of the optional `tags` mapping (any failure aborting
the whole decode), then reads `gw_mac` and the optional `coordinates`. -/
def HistoryResponse.from_gateway_history_json (data : Json) :
    Except DecodeError HistoryResponse :=
  match data.getItem "data" with
  | .error e => .error e
  | .ok payload =>
    match payload.getItem "timestamp" with
    | .error e => .error e
    | .ok tsj =>
      match pyInt tsj with
      | none => .error .valueError
      | some response_timestamp =>
        match payload.getDefault "tags" (.obj []) with
        | .error e => .error e
        | .ok tagsJson =>
          match tagsJson.asObj with
          | .error e => .error e
          | .ok tagFields =>
            match mapExcept
                (fun p => TagData.from_gateway_history_json_tag p.1 p.2
                  (some response_timestamp)) tagFields with
            | .error e => .error e
            | .ok tags =>
              match payload.getItem "gw_mac" with
              | .error e => .error e
              | .ok gw =>
                match payload.getDefault "coordinates" (.str "") with
                | .error e => .error e
                | .ok coords =>
                  .ok { timestamp := response_timestamp, gw_mac := gw,
                        tags := tags, coordinates := coords }

/-- Errors raised by `async_get_gateway_history_data`. `InvalidAuth` and
`CannotConnect` are the exception classes of `api.py`; `decodeError` wraps
the raw exception that `from_gateway_history_json` lets escape (the spec's
`DecodeError` classification). -/
inductive FetchError where
  | invalidAuth
  | cannotConnect (msg : String)
  | decodeError (e : DecodeError)
deriving DecidableEq

/-- What the HTTP transport produced for one request: a timeout
(`asyncio.TimeoutError`), a connection failure (`aiohttp.ClientError`), or
a response with a status code and a body; `none` stands for a body that is
not parsable as JSON (`response.json` raising). -/
inductive TransportOutcome where
  | timeout
  | clientError
  | response (status : Nat) (body : Option Json)

/-- Header construction of `async_get_gateway_history_data` (`api.py`
lines 114–116): the Python truthiness test `if bearer_token:` attaches the
`Authorization` header exactly when the token is not `None` and not the
empty string — no trimming happens here. -/
def request_headers (bearer_token : Option String) : Option (List (String × String)) :=
  match bearer_token with
  | none => none
  | some t => if t = "" then none else some [("Authorization", "Bearer " ++ t)]

/-- Embedding of the response handling of `async_get_gateway_history_data`
(`api.py` lines 113–138): status 401 raises `InvalidAuth` before the body
is looked at, any other non-200 status raises `CannotConnect` with the
status code in the message, a timeout or client error raises
`CannotConnect`, a 200 body that fails JSON parsing raises `CannotConnect`,
and a parsed body is handed to `from_gateway_history_json`, whose failure
propagates as the decode-error classification. -/
def async_get_gateway_history_data (outcome : TransportOutcome) :
    Except FetchError HistoryResponse :=
  match outcome with
  | .timeout => .error (.cannotConnect "Timeout communicating with gateway")
  | .clientError => .error (.cannotConnect "Error communicating with gateway")
  | .response status body =>
    if status = 401 then .error .invalidAuth
    else if status ≠ 200 then
      .error (.cannotConnect ("Unexpected response from gateway: HTTP " ++ toString status))
    else
      match body with
      | none => .error (.cannotConnect "Invalid response from gateway")
      | some data =>
        match HistoryResponse.from_gateway_history_json data with
        | .error e => .error (.decodeError e)
        | .ok resp => .ok resp

/-- Token normalization of `RuuviConfigFlow._async_validate`
(`config_flow.py` lines 39–45): a string token is stripped and an
empty-after-strip token becomes `None`; a missing token is `None`. -/
def config_flow_token (token_input : Option String) : Option String :=
  match token_input with
  | none => none
  | some s => if pyStrip s = "" then none else some (pyStrip s)

/-- The coordinator's `last_tag_datas` mapping: a Python dict from mac to
the last stored `TagData`, as an association list. -/
def Cache := List (String × TagData)

/-- Dict lookup in the cache (first matching key). -/
def lookupCache : Cache → String → Option TagData
  | [], _ => none
  | (k, v) :: rest, mac => if k = mac then some v else lookupCache rest mac

/-- Dict assignment `cache[mac] = t`: replace the existing entry in place,
or append a new one. -/
def cacheInsert : Cache → String → TagData → Cache
  | [], mac, t => [(mac, t)]
  | (k, v) :: rest, mac, t =>
    if k = mac then (mac, t) :: rest else (k, v) :: cacheInsert rest mac t

/-- The changed-test of `_async_update_data` (`coordinator.py` lines
48–51): `tag.mac not in self.last_tag_datas or
self.last_tag_datas[tag.mac].data != tag.data`. -/
def tagChanged (cache : Cache) (tag : TagData) : Bool :=
  match lookupCache cache tag.mac with
  | none => true
  | some prev => decide (prev.data ≠ tag.data)

/-- The for-loop of `_async_update_data` (`coordinator.py` lines 47–53):
walks the response's tags in order, appends each changed tag to the result
and stores it in the cache before the next iteration. Returns the changed
list and the final cache. -/
def updateLoop (cache : Cache) : List TagData → List TagData × Cache
  | [] => ([], cache)
  | tag :: rest =>
    if tagChanged cache tag then
      (tag :: (updateLoop (cacheInsert cache tag.mac tag) rest).1,
        (updateLoop (cacheInsert cache tag.mac tag) rest).2)
    else updateLoop cache rest

/-- The diff step of the Change Cache: previous state plus a decoded
response give the changed records and the updated state. -/
def diff (cache : Cache) (resp : HistoryResponse) : List TagData × Cache :=
  updateLoop cache resp.tags

/-- One full cycle of `RuuviGatewayUpdateCoordinator._async_update_data`
(`coordinator.py` lines 40–54): fetch-and-decode, then the diff loop. An
exception from the fetch or the decode propagates before the loop runs, so
the cache (second component) is returned untouched in that case. -/
def coordinator_update_data (cache : Cache) (outcome : TransportOutcome) :
    Except FetchError (List TagData) × Cache :=
  match async_get_gateway_history_data outcome with
  | .error e => (.error e, cache)
  | .ok resp =>
    (.ok (updateLoop cache resp.tags).1, (updateLoop cache resp.tags).2)

/-- Malformation cases for one `tags` entry: a missing required field
(`timestamp`, `rssi`, `data`), a non-numeric `timestamp` or `rssi`, a
non-hex `data` string, or an entry that is not an object at all. -/
def tag_entry_malformed (tp : Json) : Bool :=
  match tp with
  | .obj fields =>
    (lookupField fields "timestamp").isNone ||
    (lookupField fields "rssi").isNone ||
    (lookupField fields "data").isNone ||
    (match lookupField fields "timestamp" with
     | some v => (pyInt v).isNone
     | none => false) ||
    (match lookupField fields "rssi" with
     | some v => (pyInt v).isNone
     | none => false) ||
    (match lookupField fields "data" with
     | some (.str s) => (bytes_fromhex s).isNone
     | some _ => false
     | none => false)
  | _ => true

/-- The single tag entry of the spec's worked example: `rssi` -70,
`timestamp` 95, `data` the hex string `0201060303aafe`. -/
def exampleTagJson : Json :=
  .obj [("rssi", .num (-70)), ("timestamp", .num 95), ("data", .str "0201060303aafe")]

/-- The spec's worked example response body: response timestamp 100, one
tag with tag timestamp 95. -/
def exampleJson : Json :=
  .obj [("data", .obj [("timestamp", .num 100), ("gw_mac", .str "AA:BB:CC:DD:EE:FF"),
    ("tags", .obj [("11:22:33:44:55:66", exampleTagJson)])])]

/-- The record the decoder produces for the example tag entry:
`age_seconds = 100 - 95 = 5`. -/
def exampleTag : TagData :=
  { mac := "11:22:33:44:55:66", rssi := -70, timestamp := 95,
    data := [2, 1, 6, 3, 3, 170, 254], age_seconds := some 5 }

/-- The decoded example response, used to exercise the diff step. -/
def exampleResponse : HistoryResponse :=
  { timestamp := 100, gw_mac := .str "AA:BB:CC:DD:EE:FF",
    tags := [exampleTag], coordinates := .str "" }

/-- The example tag entry with its hex string corrupted to `"zz"`. -/
def malformedTagJson : Json :=
  .obj [("rssi", .num (-70)), ("timestamp", .num 95), ("data", .str "zz")]

/-- The example response body with the corrupted tag entry inside. -/
def malformedJson : Json :=
  .obj [("data", .obj [("timestamp", .num 100), ("gw_mac", .str "AA:BB:CC:DD:EE:FF"),
    ("tags", .obj [("11:22:33:44:55:66", malformedTagJson)])])]

/-- A cached record sharing the example tag's payload but with the signal
strength, timestamp and age of an earlier cycle. -/
def staleTag : TagData :=
  { mac := "11:22:33:44:55:66", rssi := -60, timestamp := 90,
    data := [2, 1, 6, 3, 3, 170, 254], age_seconds := some 10 }

/-- Dict assignment stores the value under the assigned key. -/
theorem lookup_cacheInsert_self (c : Cache) (m : String) (t : TagData) :
    lookupCache (cacheInsert c m t) m = some t := by
  induction c with
  | nil => simp [cacheInsert, lookupCache]
  | cons kv rest ih =>
    obtain ⟨k, v⟩ := kv
    by_cases h : k = m
    · simp [cacheInsert, h, lookupCache]
    · simp [cacheInsert, h, lookupCache, ih]

/-- Dict assignment leaves every other key's value unchanged. -/
theorem lookup_cacheInsert_ne (c : Cache) (m m' : String) (t : TagData)
    (h : m' ≠ m) : lookupCache (cacheInsert c m t) m' = lookupCache c m' := by
  induction c with
  | nil => simp [cacheInsert, lookupCache, Ne.symm h]
  | cons kv rest ih =>
    obtain ⟨k, v⟩ := kv
    by_cases hk : k = m
    · subst hk
      simp [cacheInsert, lookupCache, Ne.symm h]
    · by_cases hk' : k = m'
      · simp [cacheInsert, hk, lookupCache, hk', h]
      · simp [cacheInsert, hk, lookupCache, hk', ih]

/-- The changed-test is insensitive to a cache assignment under another
mac. -/
theorem tagChanged_cacheInsert_ne (c : Cache) (m : String) (t tag : TagData)
    (h : tag.mac ≠ m) : tagChanged (cacheInsert c m t) tag = tagChanged c tag := by
  unfold tagChanged
  rw [lookup_cacheInsert_ne _ _ _ _ h]

/-- Every record in the changed list comes from the response's tag list. -/
theorem updateLoop_subset (l : List TagData) (c : Cache) (tag : TagData)
    (h : tag ∈ (updateLoop c l).1) : tag ∈ l := by
  induction l generalizing c with
  | nil => simp [updateLoop] at h
  | cons a rest ih =>
    by_cases hc : tagChanged c a = true
    · simp only [updateLoop, hc, if_true, List.mem_cons] at h
      rcases h with h | h
      · simp [h]
      · exact List.mem_cons_of_mem _ (ih _ h)
    · simp only [updateLoop, hc, if_false] at h
      exact List.mem_cons_of_mem _ (ih _ h)

/-- The loop never writes a cache key outside the response's macs. -/
theorem updateLoop_frame (l : List TagData) (c : Cache) (mac : String)
    (h : mac ∉ l.map TagData.mac) :
    lookupCache (updateLoop c l).2 mac = lookupCache c mac := by
  induction l generalizing c with
  | nil => rfl
  | cons a rest ih =>
    simp only [List.map_cons, List.mem_cons] at h
    push_neg at h
    obtain ⟨hne, hrest⟩ := h
    by_cases hc : tagChanged c a = true
    · simp only [updateLoop, hc, if_true]
      rw [ih _ hrest, lookup_cacheInsert_ne _ _ _ _ hne]
    · simp only [updateLoop, hc, if_false]
      exact ih _ hrest

/-- With no duplicate macs, a tag of the response is in the changed list
exactly when the changed-test holds against the incoming cache. -/
theorem updateLoop_mem_iff (l : List TagData) (c : Cache) (tag : TagData)
    (hnd : (l.map TagData.mac).Nodup) (hmem : tag ∈ l) :
    (tag ∈ (updateLoop c l).1 ↔ tagChanged c tag = true) := by
  induction l generalizing c with
  | nil => cases hmem
  | cons a rest ih =>
    simp only [List.map_cons, List.nodup_cons] at hnd
    obtain ⟨hain, hnd'⟩ := hnd
    rcases List.mem_cons.mp hmem with rfl | hmem'
    · cases hc : tagChanged c tag with
      | true => simp [updateLoop, hc]
      | false =>
        simp only [updateLoop, hc, Bool.false_eq_true, if_false]
        constructor
        · intro hin
          exact absurd (List.mem_map_of_mem TagData.mac (updateLoop_subset _ _ _ hin)) hain
        · intro hcontra
          exact hcontra.elim
    · have hne : tag.mac ≠ a.mac := by
        intro he
        exact hain (he ▸ List.mem_map_of_mem TagData.mac hmem')
      by_cases hc : tagChanged c a = true
      · simp only [updateLoop, hc, if_true, List.mem_cons]
        have hne' : tag ≠ a := fun he => hne (by rw [he])
        rw [ih _ hnd' hmem', tagChanged_cacheInsert_ne _ _ _ _ hne]
        simp [hne']
      · simp only [updateLoop, hc, if_false]
        exact ih _ hnd' hmem'

/-- With no duplicate macs, after the loop the cache holds, under each
response mac, a record carrying exactly that response record's payload. -/
theorem updateLoop_lookup_data (l : List TagData) (c : Cache) (tag : TagData)
    (hnd : (l.map TagData.mac).Nodup) (hmem : tag ∈ l) :
    ∃ t', lookupCache (updateLoop c l).2 tag.mac = some t' ∧ t'.data = tag.data := by
  induction l generalizing c with
  | nil => cases hmem
  | cons a rest ih =>
    simp only [List.map_cons, List.nodup_cons] at hnd
    obtain ⟨hain, hnd'⟩ := hnd
    rcases List.mem_cons.mp hmem with rfl | hmem'
    · cases hc : tagChanged c tag with
      | true =>
        refine ⟨tag, ?_, rfl⟩
        simp only [updateLoop, hc, if_true]
        rw [updateLoop_frame _ _ _ hain, lookup_cacheInsert_self]
      | false =>
        have hc' := hc
        unfold tagChanged at hc'
        cases hl : lookupCache c tag.mac with
        | none => rw [hl] at hc'; simp at hc'
        | some prev =>
          rw [hl] at hc'
          have hdata : prev.data = tag.data := by
            by_contra hne
            simp [hne] at hc'
          refine ⟨prev, ?_, hdata⟩
          simp only [updateLoop, hc, Bool.false_eq_true, if_false]
          rw [updateLoop_frame _ _ _ hain, hl]
    · have hne : tag.mac ≠ a.mac := by
        intro he
        exact hain (he ▸ List.mem_map_of_mem TagData.mac hmem')
      by_cases hc : tagChanged c a = true
      · simp only [updateLoop, hc, if_true]
        exact ih _ hnd' hmem'
      · simp only [updateLoop, hc, if_false]
        exact ih _ hnd' hmem'

/-- A loop in which no tag passes the changed-test emits nothing and
leaves the cache as it was. -/
theorem updateLoop_nochange (l : List TagData) (c : Cache)
    (h : ∀ tag ∈ l, tagChanged c tag = false) : updateLoop c l = ([], c) := by
  induction l with
  | nil => rfl
  | cons a rest ih =>
    have ha : tagChanged c a = false := h a (List.mem_cons_self a rest)
    simp only [updateLoop, ha, if_false]
    exact ih fun tag ht => h tag (List.mem_cons_of_mem _ ht)

/-- With no duplicate macs, a response record whose payload matches the
cached record leaves that cached record untouched in the final cache. -/
theorem updateLoop_keep (l : List TagData) (c : Cache) (tag prev : TagData)
    (hnd : (l.map TagData.mac).Nodup) (hmem : tag ∈ l)
    (hl : lookupCache c tag.mac = some prev) (hdata : prev.data = tag.data) :
    lookupCache (updateLoop c l).2 tag.mac = some prev := by
  induction l generalizing c with
  | nil => cases hmem
  | cons a rest ih =>
    simp only [List.map_cons, List.nodup_cons] at hnd
    obtain ⟨hain, hnd'⟩ := hnd
    rcases List.mem_cons.mp hmem with rfl | hmem'
    · have hc : tagChanged c tag = false := by
        unfold tagChanged
        rw [hl]
        simp [hdata]
      simp only [updateLoop, hc, Bool.false_eq_true, if_false]
      rw [updateLoop_frame _ _ _ hain, hl]
    · have hne : tag.mac ≠ a.mac := by
        intro he
        exact hain (he ▸ List.mem_map_of_mem TagData.mac hmem')
      by_cases hc : tagChanged c a = true
      · simp only [updateLoop, hc, if_true]
        refine ih _ hnd' hmem' ?_
        rw [lookup_cacheInsert_ne _ _ _ _ hne]
        exact hl
      · simp only [updateLoop, hc, if_false]
        exact ih _ hnd' hmem' hl

/-- The changed-test holds exactly when the mac is new to the cache or the
cached payload differs from the incoming one. -/
theorem tagChanged_iff (c : Cache) (t : TagData) :
    tagChanged c t = true ↔
      lookupCache c t.mac = none ∨
        ∃ prev, lookupCache c t.mac = some prev ∧ prev.data ≠ t.data := by
  unfold tagChanged
  cases hl : lookupCache c t.mac with
  | none => simp
  | some prev => simp

/-- A failing element makes the whole traversal fail: the embedding of
"any bad `tags` entry aborts decoding of the whole response". -/
theorem mapExcept_error_of_mem (f : α → Except ε β) (l : List α) (x : α)
    (hx : x ∈ l) (he : isErr (f x) = true) : ∃ e, mapExcept f l = .error e := by
  induction l with
  | nil => cases hx
  | cons a rest ih =>
    rcases List.mem_cons.mp hx with rfl | hx'
    · cases hf : f x with
      | error e => exact ⟨e, by simp [mapExcept, hf]⟩
      | ok b => rw [hf] at he; simp [isErr] at he
    · cases hf : f a with
      | error e => exact ⟨e, by simp [mapExcept, hf]⟩
      | ok b =>
        obtain ⟨e, hrec⟩ := ih hx'
        exact ⟨e, by simp [mapExcept, hf, hrec]⟩

/-- A malformed tag entry (missing field, non-numeric `timestamp`/`rssi`,
or non-hex `data`) makes the per-tag decoder fail, whatever the response
timestamp. -/
theorem malformed_tag_isErr (mac : String) (tp : Json) (rt : Option Int)
    (h : tag_entry_malformed tp = true) :
    isErr (TagData.from_gateway_history_json_tag mac tp rt) = true := by
  unfold TagData.from_gateway_history_json_tag
  cases tp with
  | obj fields =>
    unfold tag_entry_malformed at h
    simp only [Json.getItem]
    cases hts : lookupField fields "timestamp" with
    | none => simp [isErr]
    | some tsj =>
      cases hpi : pyInt tsj with
      | none => simp [hts, hpi, isErr]
      | some ts =>
        cases hrs : lookupField fields "rssi" with
        | none => simp [hts, hpi, hrs, isErr]
        | some rj =>
          cases hpr : pyInt rj with
          | none => simp [hts, hpi, hrs, hpr, isErr]
          | some rv =>
            cases hd : lookupField fields "data" with
            | none => simp [hts, hpi, hrs, hpr, hd, isErr]
            | some dj =>
              cases dj with
              | str ds =>
                cases hb : bytes_fromhex ds with
                | none => simp [hts, hpi, hrs, hpr, hd, hb, isErr]
                | some bs =>
                  simp [hts, hrs, hd, hpi, hpr, hb] at h
              | null => simp [hts, hpi, hrs, hpr, hd, isErr]
              | bool b => simp [hts, hpi, hrs, hpr, hd, isErr]
              | num n => simp [hts, hpi, hrs, hpr, hd, isErr]
              | arr elems => simp [hts, hpi, hrs, hpr, hd, isErr]
              | obj fields2 => simp [hts, hpi, hrs, hpr, hd, isErr]
  | null => simp [Json.getItem, isErr]
  | bool b => simp [Json.getItem, isErr]
  | num n => simp [Json.getItem, isErr]
  | str s => simp [Json.getItem, isErr]
  | arr elems => simp [Json.getItem, isErr]

/-- C1: for every fetched response body whose `tags` mapping contains an
entry with a non-hex `data` string, a missing required field, or a
non-numeric `timestamp`/`rssi` (`tag_entry_malformed`), the fetch-and-
decode operation fails with the decode-error classification and returns no
`HistoryResponse` (no partial record list). -/
theorem decode_error_on_malformed_tag
    (data payload tagsJson : Json) (fields : List (String × Json))
    (mac : String) (tp : Json)
    (h1 : data.getItem "data" = .ok payload)
    (h2 : payload.getDefault "tags" (.obj []) = .ok tagsJson)
    (h3 : tagsJson.asObj = .ok fields)
    (h4 : (mac, tp) ∈ fields)
    (h5 : tag_entry_malformed tp = true) :
    (∃ e, async_get_gateway_history_data (.response 200 (some data)) =
        .error (.decodeError e)) ∧
      ∀ r, async_get_gateway_history_data (.response 200 (some data)) ≠ .ok r := by
  have hdec : ∃ e, HistoryResponse.from_gateway_history_json data = .error e := by
    unfold HistoryResponse.from_gateway_history_json
    simp only [h1]
    cases hts : payload.getItem "timestamp" with
    | error e => exact ⟨e, rfl⟩
    | ok tsj =>
      simp only []
      cases hpi : pyInt tsj with
      | none => exact ⟨.valueError, rfl⟩
      | some ts =>
        simp only [h2, h3]
        obtain ⟨e, hm⟩ := mapExcept_error_of_mem
          (fun p => TagData.from_gateway_history_json_tag p.1 p.2 (some ts))
          fields (mac, tp) h4 (malformed_tag_isErr mac tp (some ts) h5)
        exact ⟨e, by simp only [hm]⟩
  obtain ⟨e, hdec⟩ := hdec
  have hfetch : async_get_gateway_history_data (.response 200 (some data)) =
      .error (.decodeError e) := by
    unfold async_get_gateway_history_data
    simp [hdec]
  exact ⟨⟨e, hfetch⟩, fun r hr => by rw [hfetch] at hr; cases hr⟩

/-- Witness for C1: the example body with its tag's hex corrupted to
`"zz"` makes the fetch fail with the decode-error classification. -/
theorem decode_error_on_malformed_tag_witness :
    ∃ e, async_get_gateway_history_data (.response 200 (some malformedJson)) =
      .error (.decodeError e) :=
  (decode_error_on_malformed_tag malformedJson
    (.obj [("timestamp", .num 100), ("gw_mac", .str "AA:BB:CC:DD:EE:FF"),
      ("tags", .obj [("11:22:33:44:55:66", malformedTagJson)])])
    (.obj [("11:22:33:44:55:66", malformedTagJson)])
    [("11:22:33:44:55:66", malformedTagJson)]
    "11:22:33:44:55:66" malformedTagJson
    rfl rfl rfl (List.mem_singleton.mpr rfl) (by rfl)).1

/-- C2 counterexample: the fetch operation called with the whitespace-only
bearer token `"  "` DOES attach an `Authorization` header (Python
truthiness, no trimming in `api.py`), although the token is empty after
trimming — refuting the claim as stated about the fetch operation. -/
theorem whitespace_token_sends_header :
    pyStrip "  " = "" ∧
      request_headers (some "  ") = some [("Authorization", "Bearer   ")] ∧
      request_headers (some "  ") ≠ none := by
  refine ⟨rfl, rfl, ?_⟩
  intro h
  exact Option.noConfusion h

/-- C2 (amended): the fetch operation attaches the header exactly when the
token it receives is non-`None` and non-empty (no trimming there); the
config-flow validation strips the entered token and turns an
empty-after-strip token into `None` before calling the fetch, so a token
that is empty after trimming (such as `"  "`) leads to no `Authorization`
header, and otherwise the header carries the stripped token. -/
theorem token_header_amended (s : String) :
    (request_headers (some s) = none ↔ s = "") ∧
      (request_headers (config_flow_token (some s)) = none ↔ pyStrip s = "") ∧
      (pyStrip s ≠ "" →
        request_headers (config_flow_token (some s)) =
          some [("Authorization", "Bearer " ++ pyStrip s)]) := by
  refine ⟨?_, ?_, ?_⟩
  · unfold request_headers
    by_cases h : s = "" <;> simp [h]
  · unfold config_flow_token request_headers
    by_cases h : pyStrip s = "" <;> simp [h]
  · intro h
    unfold config_flow_token request_headers
    simp [h]

/-- Witness for the amended C2: the token `" abc "` is stripped by the
config flow and the header carries `Bearer abc`. -/
theorem token_header_amended_witness :
    request_headers (config_flow_token (some " abc ")) =
      some [("Authorization", "Bearer abc")] := by
  have h := (token_header_amended " abc ").2.2 (by decide)
  rw [show pyStrip " abc " = "abc" from rfl] at h
  exact h

/-- C3 counterexample: a `tags` entry whose `data` is the empty hex string
is NOT rejected — the decoder constructs a record with an empty payload,
refuting the claim that `payload` is never empty. -/
theorem empty_payload_constructed :
    TagData.from_gateway_history_json_tag "11:22:33:44:55:66"
        (.obj [("rssi", .num (-70)), ("timestamp", .num 95), ("data", .str "")])
        (some 100) =
      .ok { mac := "11:22:33:44:55:66", rssi := -70, timestamp := 95,
            data := [], age_seconds := some 5 } ∧
      ({ mac := "11:22:33:44:55:66", rssi := -70, timestamp := 95,
         data := [], age_seconds := some 5 } : TagData).data = [] := by
  exact ⟨rfl, rfl⟩

/-- Inversion of a successful per-tag decode: the entry had numeric
`timestamp` and `rssi` fields and a string `data` field that parsed as
hex, and the record's fields are exactly those values, the age computed
from the response timestamp by the falsy test. -/
theorem tag_decode_ok_inversion (mac : String) (p : Json) (rt : Option Int)
    (t : TagData)
    (h : TagData.from_gateway_history_json_tag mac p rt = .ok t) :
    ∃ tsj ts rj rv ds bs,
      p.getItem "timestamp" = .ok tsj ∧ pyInt tsj = some ts ∧
        p.getItem "rssi" = .ok rj ∧ pyInt rj = some rv ∧
        p.getItem "data" = .ok (.str ds) ∧ bytes_fromhex ds = some bs ∧
        t = { mac := mac, rssi := rv, timestamp := ts, data := bs,
              age_seconds := age_from rt ts } := by
  unfold TagData.from_gateway_history_json_tag at h
  cases hts : p.getItem "timestamp" with
  | error e => rw [hts] at h; exact Except.noConfusion h
  | ok tsj =>
    rw [hts] at h
    simp only [] at h
    cases hpi : pyInt tsj with
    | none => rw [hpi] at h; exact Except.noConfusion h
    | some ts =>
      rw [hpi] at h
      simp only [] at h
      cases hrs : p.getItem "rssi" with
      | error e => rw [hrs] at h; exact Except.noConfusion h
      | ok rj =>
        rw [hrs] at h
        simp only [] at h
        cases hpr : pyInt rj with
        | none => rw [hpr] at h; exact Except.noConfusion h
        | some rv =>
          rw [hpr] at h
          simp only [] at h
          cases hd : p.getItem "data" with
          | error e => rw [hd] at h; exact Except.noConfusion h
          | ok dj =>
            rw [hd] at h
            simp only [] at h
            cases dj with
            | str ds =>
              simp only [] at h
              cases hb : bytes_fromhex ds with
              | none => rw [hb] at h; exact Except.noConfusion h
              | some bs =>
                rw [hb] at h
                simp only [] at h
                injection h with h'
                exact ⟨tsj, ts, rj, rv, ds, bs, rfl, hpi, rfl, hpr, rfl, hb, h'.symm⟩
            | null => exact Except.noConfusion h
            | bool b => exact Except.noConfusion h
            | num n => exact Except.noConfusion h
            | arr elems => exact Except.noConfusion h
            | obj fs => exact Except.noConfusion h

/-- C3 (amended): every constructed record's payload is exactly the hex
decoding of the entry's `data` string, and an entry whose `data` string is
not valid hex is rejected during decoding; the payload may however be
empty, namely when the `data` string contains no hex digit pairs (e.g. the
empty string), which decodes successfully. -/
theorem payload_is_hex_decoding (mac : String) (p : Json) (rt : Option Int)
    (t : TagData) (s : String) :
    (TagData.from_gateway_history_json_tag mac p rt = .ok t →
        ∃ ds, p.getItem "data" = .ok (.str ds) ∧ bytes_fromhex ds = some t.data) ∧
      (p.getItem "data" = .ok (.str s) → bytes_fromhex s = none →
        isErr (TagData.from_gateway_history_json_tag mac p rt) = true) := by
  constructor
  · intro h
    obtain ⟨tsj, ts, rj, rv, ds, bs, _, _, _, _, hds, hbs, ht⟩ :=
      tag_decode_ok_inversion mac p rt t h
    refine ⟨ds, hds, ?_⟩
    rw [hbs, ht]
  · intro hs hnone
    cases hdec : TagData.from_gateway_history_json_tag mac p rt with
    | error e => rfl
    | ok t' =>
      obtain ⟨tsj, ts, rj, rv, ds, bs, _, _, _, _, hds, hbs, _⟩ :=
        tag_decode_ok_inversion mac p rt t' hdec
      rw [hs] at hds
      injection hds with hds'
      injection hds' with hds''
      rw [← hds''] at hbs
      rw [hnone] at hbs
      exact Option.noConfusion hbs

/-- Witness for the amended C3: the example tag entry's payload is the hex
decoding of `0201060303aafe`. -/
theorem payload_is_hex_decoding_witness :
    ∃ ds, exampleTagJson.getItem "data" = .ok (.str ds) ∧
      bytes_fromhex ds = some exampleTag.data :=
  (payload_is_hex_decoding "11:22:33:44:55:66" exampleTagJson (some 100)
    exampleTag "").1 (by rfl)

/-- C4: with the macs of the decoded response pairwise distinct (as they
are for any response decoded from a JSON `tags` mapping), the diff step
reports a record exactly when its identifier is absent from the previous
cache or the cached payload differs byte-exactly; in particular a record
differing only in `rssi`/`timestamp` is not reported, and a never-seen
identifier always is. -/
theorem changed_iff_new_or_payload_differs (cache : Cache) (resp : HistoryResponse)
    (hnd : (resp.tags.map TagData.mac).Nodup) :
    ∀ tag ∈ resp.tags,
      (tag ∈ (diff cache resp).1 ↔
        lookupCache cache tag.mac = none ∨
          ∃ prev, lookupCache cache tag.mac = some prev ∧ prev.data ≠ tag.data) := by
  intro tag hmem
  exact (updateLoop_mem_iff resp.tags cache tag hnd hmem).trans (tagChanged_iff cache tag)

/-- Witness for C4: against an empty cache, the example record is
reported on first sighting. -/
theorem changed_iff_new_or_payload_differs_witness :
    exampleTag ∈ (diff [] exampleResponse).1 :=
  ((changed_iff_new_or_payload_differs [] exampleResponse (by decide)
    exampleTag (List.mem_singleton.mpr rfl)).mpr (Or.inl rfl))

/-- C5: running the diff step twice in a row on the same response (with
pairwise-distinct macs) yields an empty changed list on the second run:
the first run's cache update absorbs the response. -/
theorem diff_idempotent (cache : Cache) (resp : HistoryResponse)
    (hnd : (resp.tags.map TagData.mac).Nodup) :
    (diff (diff cache resp).2 resp).1 = [] := by
  have hall : ∀ tag ∈ resp.tags, tagChanged (updateLoop cache resp.tags).2 tag = false := by
    intro tag hmem
    obtain ⟨t', hl, hd⟩ := updateLoop_lookup_data resp.tags cache tag hnd hmem
    unfold tagChanged
    rw [hl]
    simp [hd]
  have h := updateLoop_nochange resp.tags (updateLoop cache resp.tags).2 hall
  show (updateLoop (updateLoop cache resp.tags).2 resp.tags).1 = []
  rw [h]

/-- Witness for C5: the example response produces no changed records on
its second consecutive diff. -/
theorem diff_idempotent_witness :
    (diff (diff [] exampleResponse).2 exampleResponse).1 = [] :=
  diff_idempotent [] exampleResponse (by decide)

/-- C6: a successfully decoded record's age is the response timestamp
minus the record's timestamp when the response timestamp is present and
non-zero, and `none` otherwise; and the spec's example body decodes to
exactly one record with age 5. -/
theorem age_seconds_spec :
    (∀ mac p rt t, TagData.from_gateway_history_json_tag mac p rt = .ok t →
        t.age_seconds = age_from rt t.timestamp) ∧
      HistoryResponse.from_gateway_history_json exampleJson = .ok exampleResponse ∧
      exampleResponse.tags = [exampleTag] ∧
      exampleTag.age_seconds = some 5 := by
  refine ⟨?_, rfl, rfl, rfl⟩
  intro mac p rt t h
  obtain ⟨tsj, ts, rj, rv, ds, bs, _, _, _, _, _, _, ht⟩ :=
    tag_decode_ok_inversion mac p rt t h
  rw [ht]

/-- Witness for C6: the example tag entry decodes with age
`100 - 95 = 5`. -/
theorem age_seconds_spec_witness :
    exampleTag.age_seconds = age_from (some 100) exampleTag.timestamp :=
  age_seconds_spec.1 "11:22:33:44:55:66" exampleTagJson (some 100) exampleTag rfl

/-- C7: an HTTP 401 response yields `InvalidAuth` regardless of body; any
other non-200 status yields `CannotConnect` with the status code in the
message; a timeout, a connection failure, or a JSON-parse failure of a
200-status body yields `CannotConnect`. -/
theorem fetch_error_classification (status : Nat) (body : Option Json)
    (h200 : status ≠ 200) (h401 : status ≠ 401) :
    async_get_gateway_history_data (.response 401 body) = .error .invalidAuth ∧
      async_get_gateway_history_data (.response status body) =
        .error (.cannotConnect ("Unexpected response from gateway: HTTP " ++ toString status)) ∧
      async_get_gateway_history_data .timeout =
        .error (.cannotConnect "Timeout communicating with gateway") ∧
      async_get_gateway_history_data .clientError =
        .error (.cannotConnect "Error communicating with gateway") ∧
      async_get_gateway_history_data (.response 200 none) =
        .error (.cannotConnect "Invalid response from gateway") := by
  refine ⟨rfl, ?_, rfl, rfl, rfl⟩
  unfold async_get_gateway_history_data
  simp only []
  rw [if_neg h401, if_pos h200]

/-- Witness for C7: an HTTP 500 response yields `CannotConnect` carrying
the status code. -/
theorem fetch_error_classification_witness :
    async_get_gateway_history_data (.response 500 none) =
      .error (.cannotConnect ("Unexpected response from gateway: HTTP " ++ toString (500 : Nat))) :=
  (fetch_error_classification 500 none (by decide) (by decide)).2.1

/-- C8: a poll cycle failing with `InvalidAuth`, `CannotConnect`, or a
decode failure leaves the cache exactly unchanged: the error is surfaced
and no partial cache update is committed. -/
theorem failed_cycle_preserves_cache (cache : Cache) (outcome : TransportOutcome)
    (e : FetchError) (h : (coordinator_update_data cache outcome).1 = .error e) :
    (coordinator_update_data cache outcome).2 = cache := by
  unfold coordinator_update_data at h ⊢
  cases hf : async_get_gateway_history_data outcome with
  | error e' => rfl
  | ok resp =>
    rw [hf] at h
    exact Except.noConfusion h

/-- Witness for C8: a timed-out cycle leaves a one-entry cache as it
was. -/
theorem failed_cycle_preserves_cache_witness :
    (coordinator_update_data [("11:22:33:44:55:66", staleTag)] .timeout).2 =
      [("11:22:33:44:55:66", staleTag)] :=
  failed_cycle_preserves_cache [("11:22:33:44:55:66", staleTag)] .timeout
    (.cannotConnect "Timeout communicating with gateway") rfl

/-- C9: after the diff step (macs pairwise distinct), the updated cache
maps every identifier of the new response to that response's payload
bytes, and every identifier not in the response keeps its previous cache
entry unchanged — entries are never purged. -/
theorem cache_update_frame (cache : Cache) (resp : HistoryResponse)
    (hnd : (resp.tags.map TagData.mac).Nodup) :
    (∀ tag ∈ resp.tags, ∃ t', lookupCache (diff cache resp).2 tag.mac = some t' ∧
        t'.data = tag.data) ∧
      ∀ mac, mac ∉ resp.tags.map TagData.mac →
        lookupCache (diff cache resp).2 mac = lookupCache cache mac := by
  constructor
  · intro tag hmem
    exact updateLoop_lookup_data resp.tags cache tag hnd hmem
  · intro mac hmac
    exact updateLoop_frame resp.tags cache mac hmac

/-- Witness for C9: after diffing the example response into a cache that
also holds an unrelated mac, the example mac is stored with the new
payload and the unrelated entry is untouched. -/
theorem cache_update_frame_witness :
    (∃ t', lookupCache (diff [("aa", staleTag)] exampleResponse).2
        exampleTag.mac = some t' ∧ t'.data = exampleTag.data) ∧
      lookupCache (diff [("aa", staleTag)] exampleResponse).2 "aa" =
        lookupCache [("aa", staleTag)] "aa" := by
  have h := cache_update_frame [("aa", staleTag)] exampleResponse (by decide)
  exact ⟨h.1 exampleTag (List.mem_singleton.mpr rfl), h.2 "aa" (by decide)⟩

/-- C10: an identifier present in the response whose payload equals the
cached payload keeps its full cached record (old `rssi`, `timestamp`,
`age_seconds`) — only changed records have their cache entry replaced. -/
theorem unchanged_payload_keeps_cached_record (cache : Cache)
    (resp : HistoryResponse) (hnd : (resp.tags.map TagData.mac).Nodup) :
    ∀ tag ∈ resp.tags, ∀ prev,
      lookupCache cache tag.mac = some prev → prev.data = tag.data →
      lookupCache (diff cache resp).2 tag.mac = some prev := by
  intro tag hmem prev hl hd
  exact updateLoop_keep resp.tags cache tag prev hnd hmem hl hd

/-- Witness for C10: a cached record with the example payload but older
`rssi`/`timestamp`/`age` survives a diff against the example response
unreplaced. -/
theorem unchanged_payload_keeps_cached_record_witness :
    lookupCache (diff [("11:22:33:44:55:66", staleTag)] exampleResponse).2
      exampleTag.mac = some staleTag :=
  unchanged_payload_keeps_cached_record [("11:22:33:44:55:66", staleTag)]
    exampleResponse (by decide) exampleTag (List.mem_singleton.mpr rfl)
    staleTag rfl rfl

end Ruuvi
